import Mathlib

/-!
Shallow embedding of the kruton/vswitch virtual Ethernet switch (Go).

The embedding follows the Go sources:
  * `switch/frame.go`   : `EthernetFrame`, `ParseEthernetFrame`, `Release`,
                          `IsBroadcast`, `IsMulticast`, `Validate`
  * `switch/pool.go`    : the process-wide frame-buffer pool (modelled as a
                          counter of outstanding pooled buffers)
  * connection source   : `Connection`, `ReadFrame`, `WriteFrame`, `Close`,
                          `IsClosed`
  * `switch/switch.go`  : `VirtualSwitch`, `processFrame`, `learnMAC`,
                          `forwardFrame`, `floodFrame`, `cleanupConnection`,
                          `cleanupStaleMACs`, `Stop`
  * manager source      : `SwitchManager` (`AddVLAN`, `StopAll`, ...)

Modelling conventions:
  * Bytes are `Nat` (values below 256 on every reachable input); machine
    `uint64` counters are kept modulo `2 ^ 64`.
  * `time.Time` / `time.Duration` are `Int` (nanoseconds), so `now.Sub t`
    is plain integer subtraction.
  * Go `sync.Map` is an association list; `Store` replaces in place or
    appends, `Delete` filters, `Range` iterates in list order.
  * The underlying `net.Conn` socket is a `NetConn` record: the byte stream
    the peer will deliver (`recvBuf`, ending in EOF), the bytes written so
    far (`sent`), and oracles `sendOk` / `closeOk` describing whether the
    socket's write and close calls succeed.  Read deadlines / timeouts are
    real-time behaviour and are outside the sequential model: a model read
    error corresponds to a non-timeout error of the Go code.
  * Go compares MAC addresses through `net.HardwareAddr.String()`, which is
    injective on byte content, so the model keys MAC tables by the byte
    list itself.
  * Go stores `*Connection` pointers both in the connections map and in MAC
    entries.  The model stores `Connection` values; a write performed
    through one reference updates that copy.  Which connections a frame is
    written to (the subject of the claims) is unaffected by this aliasing.
  * `processFrame`, `forwardFrame` and `floodFrame` additionally return the
    trace of attempted frame writes as `(connection id, write succeeded)`
    pairs, and whether the Go function returned a non-nil error.
-/

namespace VSwitch

/-- Modulus of Go `uint64` counters. -/
def U64 : Nat := 18446744073709551616

/-- Big-endian decoding of the 4-byte length prefix
(`uint32(b0)<<24 | uint32(b1)<<16 | uint32(b2)<<8 | uint32(b3)`). -/
def be32decode (l : List Nat) : Nat :=
  l.getD 0 0 * 16777216 + l.getD 1 0 * 65536 + l.getD 2 0 * 256 + l.getD 3 0

/-- Big-endian encoding of a length as the 4-byte wire prefix
(`byte(n>>24), byte(n>>16), byte(n>>8), byte(n)`). -/
def be32encode (n : Nat) : List Nat :=
  [n / 16777216 % 256, n / 65536 % 256, n / 256 % 256, n % 256]

/-- Association-list lookup (Go map / `sync.Map.Load`). -/
def alookup {α β : Type} [DecidableEq α] (k : α) : List (α × β) → Option β
  | [] => none
  | (k', v) :: rest => if k' = k then some v else alookup k rest

/-- Association-list insert-or-replace (Go map assignment / `sync.Map.Store`). -/
def astore {α β : Type} [DecidableEq α] (k : α) (v : β) : List (α × β) → List (α × β)
  | [] => [(k, v)]
  | (k', v') :: rest => if k' = k then (k, v) :: rest else (k', v') :: astore k v rest

/-- Update the value at a key when present, no-op otherwise.  This models a
mutation through a shared Go pointer whose object may or may not still be in
the map. -/
def aupdate {α β : Type} [DecidableEq α] (k : α) (v : β) (l : List (α × β)) : List (α × β) :=
  l.map fun kv => if kv.1 = k then (k, v) else kv

/-- Association-list delete (Go `delete` / `sync.Map.Delete`). -/
def aremove {α β : Type} [DecidableEq α] (k : α) (l : List (α × β)) : List (α × β) :=
  l.filter fun kv => ¬ kv.1 = k

/-- Parsed Ethernet frame (`EthernetFrame` of `switch/frame.go`).  The header
fields are stored alongside `raw` exactly as the Go struct does. -/
structure EthernetFrame where
  raw : List Nat
  destMAC : List Nat
  srcMAC : List Nat
  etherType : Nat
  payload : List Nat
  pooled : Bool
  deriving Repr, DecidableEq

/-- The Ethernet broadcast address (`BroadcastMAC`). -/
def BroadcastMAC : List Nat := [255, 255, 255, 255, 255, 255]

/-- Parse raw bytes into an `EthernetFrame` (`ParseEthernetFrame`): fails when
fewer than 14 bytes, otherwise slices the header fields zero-copy and marks
the frame as pooled. -/
def ParseEthernetFrame (data : List Nat) : Except String EthernetFrame :=
  if data.length < 14 then
    .error "frame too short"
  else
    .ok { raw := data
          destMAC := data.take 6
          srcMAC := (data.drop 6).take 6
          etherType := data.getD 12 0 * 256 + data.getD 13 0
          payload := data.drop 14
          pooled := true }

/-- Broadcast test (`IsBroadcast`): Go compares the destination MAC's string
form with `ff:ff:ff:ff:ff:ff`, which on byte-valued input is equality of the
byte sequences. -/
def EthernetFrame.IsBroadcast (f : EthernetFrame) : Bool :=
  f.destMAC == BroadcastMAC

/-- Multicast test (`IsMulticast`): low-order bit of the first destination
byte (`f.DestMAC[0] & 0x01 == 1`). -/
def EthernetFrame.IsMulticast (f : EthernetFrame) : Bool :=
  f.destMAC.getD 0 0 % 2 == 1

/-- Frame validation (`Validate`): total length within `[14, 1518]` and a
source MAC that is not all zeros.  Returns the error, `none` on success. -/
def EthernetFrame.Validate (f : EthernetFrame) : Option String :=
  if f.raw.length < 14 then some "frame too short"
  else if f.raw.length > 1518 then some "frame too long"
  else if f.srcMAC = [0, 0, 0, 0, 0, 0] then some "invalid source MAC: all zeros"
  else none

/-- Release a frame's buffer back to the pool (`Release` together with
`putFrameBuffer`).  The pool is modelled by the number of buffers currently
checked out; a release returns one buffer (the Go slice retains its 1518-byte
capacity, so `putFrameBuffer`'s capacity guard passes). -/
def EthernetFrame.Release (f : EthernetFrame) (pool : Nat) : EthernetFrame × Nat :=
  if f.pooled ∧ f.raw ≠ [] then
    ({ f with raw := [], pooled := false }, pool - 1)
  else
    (f, pool)

/-- State of the underlying stream socket of one connection. -/
structure NetConn where
  recvBuf : List Nat
  sent : List Nat
  sendOk : Bool
  closeOk : Bool
  sockClosed : Bool
  deriving Repr, DecidableEq

/-- One VM connection (`Connection`). -/
structure Connection where
  id : String
  conn : NetConn
  lastSeen : Int
  framesSent : Nat
  framesReceived : Nat
  bytesSent : Nat
  bytesReceived : Nat
  closed : Bool
  deriving Repr, DecidableEq

/-- Create a connection (`NewConnection`). -/
def NewConnection (id : String) (conn : NetConn) (now : Int) : Connection :=
  { id := id, conn := conn, lastSeen := now
    framesSent := 0, framesReceived := 0, bytesSent := 0, bytesReceived := 0
    closed := false }

/-- Error kinds of `ReadFrame`, one per distinct error return of the Go code. -/
inductive ReadError where
  | connClosed
  | lengthRead
  | invalidLength (n : Nat)
  | bodyRead
  | parseFailed
  | validateFailed
  deriving Repr, DecidableEq

/-- Error kinds of `WriteFrame`, one per distinct error return of the Go code. -/
inductive WriteError where
  | nilFrame
  | connClosed
  | emptyFrame
  | tooLarge
  | sockWrite
  deriving Repr, DecidableEq

/-- Read one length-prefixed frame (`ReadFrame`): closed check, 4-byte
big-endian prefix, length bounds `1 ≤ L ≤ 1518`, pooled buffer acquisition,
body read, parse, validation, then statistics update.  The Go locals
`frameLen`, `rest` and `frameData` are inlined as `be32decode (take 4 ...)`,
`drop 4 ...` and `take frameLen rest`.  The pool counter increments when
`getFrameBuffer` runs; no path of `ReadFrame` releases the buffer. -/
def Connection.ReadFrame (c : Connection) (now : Int) (pool : Nat) :
    Except ReadError (EthernetFrame × Connection) × Nat :=
  if c.closed then (.error .connClosed, pool)
  else if c.conn.recvBuf.length < 4 then (.error .lengthRead, pool)
  else if be32decode (c.conn.recvBuf.take 4) = 0 ∨
      be32decode (c.conn.recvBuf.take 4) > 1518 then
    (.error (.invalidLength (be32decode (c.conn.recvBuf.take 4))), pool)
  else if (c.conn.recvBuf.drop 4).length < be32decode (c.conn.recvBuf.take 4) then
    (.error .bodyRead, pool + 1)
  else
    match ParseEthernetFrame
        ((c.conn.recvBuf.drop 4).take (be32decode (c.conn.recvBuf.take 4))) with
    | .error _ => (.error .parseFailed, pool + 1)
    | .ok frame =>
      match frame.Validate with
      | some _ => (.error .validateFailed, pool + 1)
      | none =>
        (.ok (frame,
          { c with
            conn := { c.conn with
                      recvBuf := (c.conn.recvBuf.drop 4).drop
                        (be32decode (c.conn.recvBuf.take 4)) }
            framesReceived := (c.framesReceived + 1) % U64
            bytesReceived := (c.bytesReceived +
              ((c.conn.recvBuf.drop 4).take (be32decode (c.conn.recvBuf.take 4))).length) % U64
            lastSeen := now }), pool + 1)

/-- Write one length-prefixed frame (`WriteFrame`): nil check, closed check,
empty check, the `0xFFFFFFFF` size check, then the prefix and body writes
(which succeed together when the socket's `sendOk` oracle holds) and the
statistics update. -/
def Connection.WriteFrame (c : Connection) (frame : Option EthernetFrame) :
    Except WriteError Connection :=
  match frame with
  | none => .error .nilFrame
  | some f =>
    if c.closed then .error .connClosed
    else if f.raw.length = 0 then .error .emptyFrame
    else if f.raw.length > 4294967295 then .error .tooLarge
    else if c.conn.sendOk = false then .error .sockWrite
    else
      .ok { c with
            conn := { c.conn with sent := c.conn.sent ++ be32encode f.raw.length ++ f.raw }
            framesSent := (c.framesSent + 1) % U64
            bytesSent := (c.bytesSent + f.raw.length) % U64 }

/-- Close the connection (`Close`).  Returns the new state and whether an
error was returned: an already-closed connection returns success untouched;
otherwise the closed flag is set, the socket close is attempted, and its
failure (oracle `closeOk` false) is returned. -/
def Connection.Close (c : Connection) : Connection × Bool :=
  if c.closed then (c, false)
  else
    ({ c with closed := true, conn := { c.conn with sockClosed := true } },
     c.conn.closeOk = false)

/-- Closed-state accessor (`IsClosed`). -/
def Connection.IsClosed (c : Connection) : Bool := c.closed

/-- MAC learning table entry (`MACEntry`). -/
structure MACEntry where
  connection : Connection
  learnedAt : Int
  deriving Repr, DecidableEq

/-- Per-VLAN switch state (`VirtualSwitch`).  The `shutdown` channel is
modelled by whether it has been closed. -/
structure VirtualSwitch where
  macTable : List (List Nat × MACEntry)
  connections : List (String × Connection)
  macTimeout : Int
  ports : List Nat
  totalFrames : Nat
  broadcastFrames : Nat
  unicastFrames : Nat
  droppedFrames : Nat
  shutdownClosed : Bool
  deriving Repr, DecidableEq

/-- Create a switch (`NewVirtualSwitch`): 300 s MAC timeout (nanoseconds),
open shutdown channel, empty tables. -/
def NewVirtualSwitch (ports : List Nat) : VirtualSwitch :=
  { macTable := [], connections := [], macTimeout := 300000000000
    ports := ports
    totalFrames := 0, broadcastFrames := 0, unicastFrames := 0, droppedFrames := 0
    shutdownClosed := false }

/-- Learn a source MAC (`learnMAC`): store `(connection, now)` under the MAC,
overwriting any previous entry. -/
def VirtualSwitch.learnMAC (vs : VirtualSwitch) (mac : List Nat) (conn : Connection)
    (now : Int) : VirtualSwitch :=
  { vs with macTable := astore mac { connection := conn, learnedAt := now } vs.macTable }

/-- Iteration body of `floodFrame`: walk the connections map, skip the entry
whose connection id equals the source's and the closed entries, attempt
`WriteFrame` on the rest, record each attempt, and keep iterating past write
errors.  Returns the updated map and the write trace. -/
def floodGo (f : EthernetFrame) (srcId : String) :
    List (String × Connection) → List (String × Connection) × List (String × Bool)
  | [] => ([], [])
  | (k, c) :: rest =>
    if c.id = srcId then
      let r := floodGo f srcId rest
      ((k, c) :: r.1, r.2)
    else if c.IsClosed then
      let r := floodGo f srcId rest
      ((k, c) :: r.1, r.2)
    else
      match c.WriteFrame (some f) with
      | .ok c' =>
        let r := floodGo f srcId rest
        ((k, c') :: r.1, (c.id, true) :: r.2)
      | .error _ =>
        let r := floodGo f srcId rest
        ((k, c) :: r.1, (c.id, false) :: r.2)

/-- Flood a frame to every other open connection (`floodFrame`).  Write
errors are collected and logged but the function always returns nil, so no
error component is produced. -/
def VirtualSwitch.floodFrame (vs : VirtualSwitch) (f : EthernetFrame) (src : Connection) :
    VirtualSwitch × List (String × Bool) :=
  let r := floodGo f src.id vs.connections
  ({ vs with connections := r.1 }, r.2)

/-- Forward a unicast frame (`forwardFrame`).  Looks the destination MAC up;
a found entry is dropped silently when its connection id is the source's,
written when its connection is open (a failed write is the returned error),
and silently skipped when its connection is closed; an absent entry floods.
The `Bool` is whether a non-nil error was returned. -/
def VirtualSwitch.forwardFrame (vs : VirtualSwitch) (f : EthernetFrame) (src : Connection) :
    VirtualSwitch × List (String × Bool) × Bool :=
  match alookup f.destMAC vs.macTable with
  | some entry =>
    if entry.connection.id = src.id then (vs, [], false)
    else if entry.connection.IsClosed = false then
      match entry.connection.WriteFrame (some f) with
      | .ok c' =>
        ({ vs with macTable :=
             astore f.destMAC { entry with connection := c' } vs.macTable },
         [(entry.connection.id, true)], false)
      | .error _ => (vs, [(entry.connection.id, false)], true)
    else (vs, [], false)
  | none =>
    let r := vs.floodFrame f src
    (r.1, r.2, false)

/-- Process one incoming frame (`processFrame`): count it, learn its source
MAC, then flood broadcast/multicast (counting it as broadcast) or forward
unicast.  Returns the new state, the write trace, and whether an error was
returned. -/
def VirtualSwitch.processFrame (vs : VirtualSwitch) (f : EthernetFrame) (src : Connection)
    (now : Int) : VirtualSwitch × List (String × Bool) × Bool :=
  let vs0 := { vs with totalFrames := (vs.totalFrames + 1) % U64 }
  let vs1 := vs0.learnMAC f.srcMAC src now
  if f.IsBroadcast || f.IsMulticast then
    let vs2 := { vs1 with broadcastFrames := (vs1.broadcastFrames + 1) % U64 }
    let r := vs2.floodFrame f src
    (r.1, r.2, false)
  else
    let vs2 := { vs1 with unicastFrames := (vs1.unicastFrames + 1) % U64 }
    vs2.forwardFrame f src

/-- Clean up a connection (`cleanupConnection`): remove it from the
connections map, evict every MAC entry whose connection id matches, and close
the connection object (the closed object is no longer referenced by the
state). -/
def VirtualSwitch.cleanupConnection (vs : VirtualSwitch) (conn : Connection) : VirtualSwitch :=
  { vs with
    connections := aremove conn.id vs.connections
    macTable := vs.macTable.filter fun ke => ¬ ke.2.connection.id = conn.id }

/-- Frame-processing branch of the reader loop of `handleConnection`: run
`processFrame`; a non-nil error increments `dropped_frames`.  The loop then
continues — no connection is torn down here. -/
def VirtualSwitch.handleFrame (vs : VirtualSwitch) (f : EthernetFrame) (src : Connection)
    (now : Int) : VirtualSwitch × List (String × Bool) :=
  let r := vs.processFrame f src now
  (if r.2.2 then { r.1 with droppedFrames := (r.1.droppedFrames + 1) % U64 } else r.1, r.2.1)

/-- One iteration of the reader loop of `handleConnection` for connection
`src`: a read error (model reads have no timeouts) exits the loop, firing the
deferred `cleanupConnection`; a read frame is processed and the loop
continues.  Returns the switch state, whether the reader keeps reading, the
write trace and the pool counter.  No branch releases the frame buffer. -/
def VirtualSwitch.readerStep (vs : VirtualSwitch) (src : Connection) (now : Int)
    (pool : Nat) : VirtualSwitch × Bool × List (String × Bool) × Nat :=
  match src.ReadFrame now pool with
  | (.error _, pool') => (vs.cleanupConnection src, false, [], pool')
  | (.ok (f, src'), pool') =>
    let vs1 := { vs with connections := aupdate src.id src' vs.connections }
    let r := vs1.handleFrame f src' now
    (r.1, true, r.2, pool')

/-- Periodic MAC-table sweep (`cleanupStaleMACs`): delete every entry that is
older than the timeout or whose connection is closed. -/
def VirtualSwitch.cleanupStaleMACs (vs : VirtualSwitch) (now : Int) : VirtualSwitch :=
  { vs with macTable := vs.macTable.filter fun ke =>
      ¬ (now - ke.2.learnedAt > vs.macTimeout ∨ ke.2.connection.IsClosed = true) }

/-- Stop a switch (`Stop`): `close(vs.shutdown)` — a Go runtime panic when
the channel is already closed, modelled as the error case — then close every
connection, ignoring per-connection close errors. -/
def VirtualSwitch.Stop (vs : VirtualSwitch) : Except Unit VirtualSwitch :=
  if vs.shutdownClosed then .error ()
  else
    .ok { vs with
          shutdownClosed := true
          connections := vs.connections.map fun kc => (kc.1, (Connection.Close kc.2).1) }

/-- Switch-manager registry (`SwitchManager.switches`): port-keyed map of
VLANs, modelled as an association list in insertion order. -/
abbrev SwitchManager : Type := List (Nat × VirtualSwitch)

/-- Create a VLAN (`AddVLAN`): duplicate ports fail, otherwise a fresh
single-port switch is registered. -/
def AddVLAN (m : SwitchManager) (port : Nat) : Except String SwitchManager :=
  match alookup port m with
  | some _ => .error "VLAN already exists"
  | none => .ok (m ++ [(port, NewVirtualSwitch [port])])

/-- Stop every VLAN (`StopAll`): call `Stop` on each switch in turn; a panic
in `Stop` propagates (error case).  The registry itself is never altered. -/
def StopAll : SwitchManager → Except Unit SwitchManager
  | [] => .ok []
  | (p, vs) :: rest =>
    match vs.Stop with
    | .error _ => .error ()
    | .ok vs' =>
      match StopAll rest with
      | .error _ => .error ()
      | .ok rest' => .ok ((p, vs') :: rest')

/-- Frame processing at manager level: the frame received on the VLAN
listening on `port` is processed by that VLAN's switch alone. -/
def managerProcessFrame (m : SwitchManager) (port : Nat) (f : EthernetFrame)
    (src : Connection) (now : Int) : SwitchManager :=
  match alookup port m with
  | some vs => aupdate port (vs.processFrame f src now).1 m
  | none => m

/-!  Helper lemmas about the association-list operations and the flood loop. -/

theorem alookup_mem {α β : Type} [DecidableEq α] {k : α} {v : β} :
    ∀ {l : List (α × β)}, alookup k l = some v → (k, v) ∈ l := by
  intro l
  induction l with
  | nil => intro h; simp [alookup] at h
  | cons kv rest ih =>
    obtain ⟨k1, v1⟩ := kv
    intro h
    rw [alookup] at h
    by_cases hk : k1 = k
    · rw [if_pos hk] at h
      cases h
      subst hk
      exact List.mem_cons_self _ _
    · rw [if_neg hk] at h
      exact List.mem_cons_of_mem _ (ih h)

theorem mem_astore {α β : Type} [DecidableEq α] {k : α} {v : β} {p : α × β} :
    ∀ {l : List (α × β)}, p ∈ astore k v l → p = (k, v) ∨ p ∈ l := by
  intro l
  induction l with
  | nil =>
    intro h
    rw [astore] at h
    rcases List.mem_cons.mp h with h1 | h1
    · left; exact h1
    · simp at h1
  | cons kv rest ih =>
    obtain ⟨k1, v1⟩ := kv
    intro h
    rw [astore] at h
    by_cases hk : k1 = k
    · rw [if_pos hk] at h
      rcases List.mem_cons.mp h with h1 | h1
      · left; exact h1
      · right; exact List.mem_cons_of_mem _ h1
    · rw [if_neg hk] at h
      rcases List.mem_cons.mp h with h1 | h1
      · right; exact h1 ▸ List.mem_cons_self _ _
      · rcases ih h1 with h2 | h2
        · left; exact h2
        · right; exact List.mem_cons_of_mem _ h2

theorem alookup_aupdate_ne {α β : Type} [DecidableEq α] {k k' : α} (v : β)
    (hk : k' ≠ k) : ∀ (l : List (α × β)), alookup k' (aupdate k v l) = alookup k' l := by
  intro l
  induction l with
  | nil => rfl
  | cons kv rest ih =>
    obtain ⟨k1, v1⟩ := kv
    have hmap : aupdate k v ((k1, v1) :: rest) =
        (if k1 = k then (k, v) else (k1, v1)) :: aupdate k v rest := by
      simp [aupdate]
    rw [hmap]
    by_cases h1 : k1 = k
    · rw [if_pos h1, alookup, alookup, if_neg (fun h => hk h.symm),
        if_neg (fun h => hk (h1.symm.trans h).symm)]
      exact ih
    · rw [if_neg h1, alookup, alookup]
      by_cases h2 : k1 = k'
      · rw [if_pos h2, if_pos h2]
      · rw [if_neg h2, if_neg h2]
        exact ih

theorem floodGo_writes_mem (f : EthernetFrame) (sid : String) :
    ∀ (l : List (String × Connection)) (w : String × Bool), w ∈ (floodGo f sid l).2 →
      w.1 ≠ sid ∧ ∃ kc ∈ l, kc.2.id = w.1 := by
  intro l
  induction l with
  | nil => intro w h; simp [floodGo] at h
  | cons kc rest ih =>
    obtain ⟨k1, c1⟩ := kc
    intro w h
    rw [floodGo] at h
    by_cases h1 : c1.id = sid
    · rw [if_pos h1] at h
      rcases ih w h with ⟨hne, p, hp, hid⟩
      exact ⟨hne, p, List.mem_cons_of_mem _ hp, hid⟩
    · rw [if_neg h1] at h
      by_cases h2 : c1.IsClosed = true
      · rw [if_pos h2] at h
        rcases ih w h with ⟨hne, p, hp, hid⟩
        exact ⟨hne, p, List.mem_cons_of_mem _ hp, hid⟩
      · rw [if_neg h2] at h
        cases hw : c1.WriteFrame (some f) with
        | error e =>
          rw [hw] at h
          rcases List.mem_cons.mp h with h3 | h3
          · subst h3; exact ⟨h1, (k1, c1), List.mem_cons_self _ _, rfl⟩
          · rcases ih w h3 with ⟨hne, p, hp, hid⟩
            exact ⟨hne, p, List.mem_cons_of_mem _ hp, hid⟩
        | ok c2 =>
          rw [hw] at h
          rcases List.mem_cons.mp h with h3 | h3
          · subst h3; exact ⟨h1, (k1, c1), List.mem_cons_self _ _, rfl⟩
          · rcases ih w h3 with ⟨hne, p, hp, hid⟩
            exact ⟨hne, p, List.mem_cons_of_mem _ hp, hid⟩

theorem floodGo_preserves_src (f : EthernetFrame) (sid : String) :
    ∀ (l : List (String × Connection)) (kc : String × Connection), kc ∈ l →
      kc.2.id = sid → kc ∈ (floodGo f sid l).1 := by
  intro l
  induction l with
  | nil => intro kc h; simp at h
  | cons hd rest ih =>
    obtain ⟨k1, c1⟩ := hd
    intro kc h hid
    rw [floodGo]
    by_cases h2 : c1.id = sid
    · rw [if_pos h2]
      rcases List.mem_cons.mp h with h1 | h1
      · exact h1 ▸ List.mem_cons_self _ _
      · exact List.mem_cons_of_mem _ (ih kc h1 hid)
    · rcases List.mem_cons.mp h with h1 | h1
      · rw [h1] at hid
        exact absurd hid h2
      · rw [if_neg h2]
        by_cases h3 : c1.IsClosed = true
        · rw [if_pos h3]
          exact List.mem_cons_of_mem _ (ih kc h1 hid)
        · rw [if_neg h3]
          cases hw : c1.WriteFrame (some f) with
          | error e => exact List.mem_cons_of_mem _ (ih kc h1 hid)
          | ok c2 => exact List.mem_cons_of_mem _ (ih kc h1 hid)

/-!  Concrete fixtures used by witnesses and counterexamples.  They mirror the
scenarios of `switch_test.go`: a VLAN with a handful of mock connections. -/

/-- A fresh open connection with an empty socket, named `i`. -/
def mkOpenConn (i : String) : Connection :=
  NewConnection i
    { recvBuf := [], sent := [], sendOk := true, closeOk := true, sockClosed := false } 0

/-- An open connection whose socket rejects writes. -/
def mkBadConn (i : String) : Connection :=
  NewConnection i
    { recvBuf := [], sent := [], sendOk := false, closeOk := true, sockClosed := false } 0

/-- Destination MAC `02:02:03:04:05:06` of the unicast fixture frame. -/
def cxDstMAC : List Nat := [2, 2, 3, 4, 5, 6]

/-- Source MAC `08:08:09:0a:0b:0c` of the fixture frames. -/
def cxSrcMAC : List Nat := [8, 8, 9, 10, 11, 12]

/-- Raw bytes of a valid 64-byte unicast frame. -/
def cxRaw : List Nat := cxDstMAC ++ cxSrcMAC ++ [8, 0] ++ List.replicate 50 0

/-- The parsed unicast fixture frame. -/
def cxFrame : EthernetFrame :=
  { raw := cxRaw, destMAC := cxDstMAC, srcMAC := cxSrcMAC, etherType := 2048
    payload := List.replicate 50 0, pooled := true }

/-- Raw bytes of a valid 64-byte broadcast frame. -/
def bcRaw : List Nat := BroadcastMAC ++ cxSrcMAC ++ [8, 0] ++ List.replicate 50 0

/-- The parsed broadcast fixture frame. -/
def bcFrame : EthernetFrame :=
  { raw := bcRaw, destMAC := BroadcastMAC, srcMAC := cxSrcMAC, etherType := 2048
    payload := List.replicate 50 0, pooled := true }

/-- The source connection of the fixtures. -/
def cxSrc : Connection := mkOpenConn "c1"

/-- A closed peer connection. -/
def cxC2closed : Connection := { mkOpenConn "c2" with closed := true }

/-- A second open peer connection. -/
def cxC3 : Connection := mkOpenConn "c3"

/-- VLAN state whose MAC table maps the unicast destination to the *closed*
peer `c2`, with the open peer `c3` also attached. -/
def cxVS : VirtualSwitch :=
  { NewVirtualSwitch [9999] with
    macTable := [(cxDstMAC, { connection := cxC2closed, learnedAt := 0 })]
    connections := [("c1", cxSrc), ("c3", cxC3)] }

/-!  Claim theorems. -/

/-- C8: the periodic MAC-table cleanup (`cleanupStaleMACs`) removes an entry
if and only if `now - learnedAt` exceeds the aging timeout or the entry's
connection is closed; every other entry stays in the table unchanged. -/
theorem cleanupStaleMACs_mem_iff (vs : VirtualSwitch) (now : Int) (k : List Nat)
    (e : MACEntry) :
    (k, e) ∈ (vs.cleanupStaleMACs now).macTable ↔
      ((k, e) ∈ vs.macTable ∧
        ¬ (now - e.learnedAt > vs.macTimeout ∨ e.connection.IsClosed = true)) := by
  simp [VirtualSwitch.cleanupStaleMACs, List.mem_filter]

/-- C9: `Close` is idempotent.  From an open connection, the first call marks
it closed and closes the underlying socket; a further call returns success
and changes nothing; and after the close both `ReadFrame` and `WriteFrame`
fail with the closed-connection error. -/
theorem Close_idempotent (c : Connection) (f : EthernetFrame) (now : Int) (pool : Nat)
    (h : c.closed = false) :
    (Connection.Close c).1.closed = true ∧
    (Connection.Close c).1.conn.sockClosed = true ∧
    Connection.Close (Connection.Close c).1 = ((Connection.Close c).1, false) ∧
    (Connection.Close c).1.ReadFrame now pool = (.error .connClosed, pool) ∧
    (Connection.Close c).1.WriteFrame (some f) = .error .connClosed := by
  simp [Connection.Close, h, Connection.ReadFrame, Connection.WriteFrame]

/-- Witness for C9 at the concrete open connection `c1` with the unicast
fixture frame. -/
theorem Close_idempotent_witness :
    cxSrc.closed = false ∧
    ((Connection.Close cxSrc).1.closed = true ∧
     (Connection.Close cxSrc).1.conn.sockClosed = true ∧
     Connection.Close (Connection.Close cxSrc).1 = ((Connection.Close cxSrc).1, false) ∧
     (Connection.Close cxSrc).1.ReadFrame 7 0 = (.error .connClosed, 0) ∧
     (Connection.Close cxSrc).1.WriteFrame (some cxFrame) = .error .connClosed) :=
  ⟨rfl, Close_idempotent cxSrc cxFrame 7 0 rfl⟩

/-- C10: `WriteFrame` enforces no 1518-byte cap: for an open connection with
a working socket and a frame of any non-zero length up to `2 ^ 32 - 1`, the
4-byte big-endian prefix and the frame bytes are written and the call
succeeds. -/
theorem WriteFrame_no_upper_bound (c : Connection) (f : EthernetFrame)
    (h1 : c.closed = false) (h2 : c.conn.sendOk = true)
    (h3 : 0 < f.raw.length) (h4 : f.raw.length ≤ 4294967295) :
    c.WriteFrame (some f) =
      .ok { c with
            conn := { c.conn with sent := c.conn.sent ++ be32encode f.raw.length ++ f.raw }
            framesSent := (c.framesSent + 1) % U64
            bytesSent := (c.bytesSent + f.raw.length) % U64 } := by
  have h0 : ¬ f.raw.length = 0 := by omega
  have h5 : ¬ f.raw.length > 4294967295 := by omega
  simp [Connection.WriteFrame, h1, h2, h0, h5]

/-- A 2000-byte frame, longer than any legal Ethernet frame. -/
def hugeFrame : EthernetFrame :=
  { raw := List.replicate 2000 7, destMAC := cxDstMAC, srcMAC := cxSrcMAC
    etherType := 2048, payload := List.replicate 1986 7, pooled := false }

/-- Witness for C10: writing the 2000-byte frame on an open connection
succeeds even though 2000 exceeds the 1518-byte read-path cap. -/
theorem WriteFrame_no_upper_bound_witness :
    cxC3.closed = false ∧ cxC3.conn.sendOk = true ∧
    0 < hugeFrame.raw.length ∧ hugeFrame.raw.length ≤ 4294967295 ∧
    1518 < hugeFrame.raw.length ∧
    cxC3.WriteFrame (some hugeFrame) =
      .ok { cxC3 with
            conn := { cxC3.conn with
                      sent := cxC3.conn.sent ++ be32encode hugeFrame.raw.length ++ hugeFrame.raw }
            framesSent := (cxC3.framesSent + 1) % U64
            bytesSent := (cxC3.bytesSent + hugeFrame.raw.length) % U64 } :=
  ⟨rfl, rfl, by norm_num [hugeFrame], by norm_num [hugeFrame], by norm_num [hugeFrame],
   WriteFrame_no_upper_bound cxC3 hugeFrame rfl rfl (by norm_num [hugeFrame])
     (by norm_num [hugeFrame])⟩

/-- C1 counterexample: in `cxVS` the MAC-table lookup of the destination
finds an entry whose connection `c2` is closed and is not the source, and
`forwardFrame` silently drops the frame — it writes nothing and returns nil —
whereas flooding the same frame (the not-found behaviour the claim asserts)
would deliver it to the open peer `c3`. -/
theorem forwardFrame_closed_entry_cx :
    cxVS.forwardFrame cxFrame cxSrc = (cxVS, [], false) ∧
    (cxVS.floodFrame cxFrame cxSrc).2 = [("c3", true)] :=
  ⟨rfl, rfl⟩

/-- C1 (amended): when the unicast lookup finds an entry whose connection is
not the source and is closed, the frame is silently dropped — no write to any
connection, no flood, no error; only a failed lookup floods. -/
theorem forwardFrame_closed_entry_drops (vs : VirtualSwitch) (f : EthernetFrame)
    (src : Connection) (entry : MACEntry)
    (h1 : alookup f.destMAC vs.macTable = some entry)
    (h2 : ¬ entry.connection.id = src.id)
    (h3 : entry.connection.IsClosed = true) :
    vs.forwardFrame f src = (vs, [], false) := by
  simp [VirtualSwitch.forwardFrame, h1, h2, h3]

/-- Witness for the amended C1 at the concrete state `cxVS`. -/
theorem forwardFrame_closed_entry_drops_witness :
    alookup cxFrame.destMAC cxVS.macTable = some { connection := cxC2closed, learnedAt := 0 } ∧
    ¬ ({ connection := cxC2closed, learnedAt := 0 } : MACEntry).connection.id = cxSrc.id ∧
    ({ connection := cxC2closed, learnedAt := 0 } : MACEntry).connection.IsClosed = true ∧
    cxVS.forwardFrame cxFrame cxSrc = (cxVS, [], false) :=
  ⟨rfl, by decide, rfl,
   forwardFrame_closed_entry_drops cxVS cxFrame cxSrc _ rfl (by decide) rfl⟩

/-- All switches of a manager have observed shutdown. -/
def AllStopped (m : SwitchManager) : Prop := ∀ pv ∈ m, pv.2.shutdownClosed = true

theorem Stop_ok_shutdownClosed {vs vs' : VirtualSwitch} (h : vs.Stop = .ok vs') :
    vs'.shutdownClosed = true := by
  rw [VirtualSwitch.Stop] at h
  by_cases hs : vs.shutdownClosed
  · rw [if_pos hs] at h
    cases h
  · rw [if_neg hs] at h
    cases h
    rfl

theorem StopAll_ok_spec : ∀ {m m' : SwitchManager}, StopAll m = .ok m' →
    m'.map Prod.fst = m.map Prod.fst ∧ AllStopped m' := by
  intro m
  induction m with
  | nil =>
    intro m' h
    rw [StopAll] at h
    cases h
    exact ⟨rfl, by intro pv hpv; simp at hpv⟩
  | cons pv rest ih =>
    obtain ⟨p, vs⟩ := pv
    intro m' h
    rw [StopAll] at h
    cases hs : vs.Stop with
    | error e => rw [hs] at h; cases h
    | ok vs' =>
      rw [hs] at h
      cases hr : StopAll rest with
      | error e => rw [hr] at h; cases h
      | ok rest' =>
        rw [hr] at h
        cases h
        rcases ih hr with ⟨hkeys, hstopped⟩
        constructor
        · simp [hkeys]
        · intro q hq
          rcases List.mem_cons.mp hq with h1 | h1
          · rw [h1]
            exact Stop_ok_shutdownClosed hs
          · exact hstopped q h1

theorem StopAll_error_of_AllStopped {m : SwitchManager} (hs : AllStopped m)
    (hne : m ≠ []) : StopAll m = .error () := by
  cases m with
  | nil => exact absurd rfl hne
  | cons pv rest =>
    obtain ⟨p, vs⟩ := pv
    have h1 : vs.shutdownClosed = true := hs (p, vs) (List.mem_cons_self _ _)
    rw [StopAll, VirtualSwitch.Stop, if_pos h1]

/-- The one-VLAN manager of the C6 fixture. -/
def c6m : SwitchManager := [(8080, NewVirtualSwitch [8080])]

/-- The same manager after its switch observed shutdown. -/
def c6mStopped : SwitchManager :=
  [(8080, { NewVirtualSwitch [8080] with shutdownClosed := true })]

/-- C6 counterexample: on a manager holding one VLAN, the first `StopAll`
succeeds, but the second `StopAll` re-closes the already-closed shutdown
channel of the VLAN's switch — a Go runtime panic, not a safe no-op. -/
theorem StopAll_second_call_panics_cx :
    StopAll c6m = .ok c6mStopped ∧ StopAll c6mStopped = .error () :=
  ⟨rfl, rfl⟩

/-- C6 (amended): a successful `StopAll` leaves the VLAN registry's ports
exactly as they were — every added VLAN is still registered, so statistics
remain available — but `StopAll` is not idempotent: as soon as the registry
is non-empty, running it again panics on the already-closed shutdown
channel. -/
theorem StopAll_registry_and_second_call (m m' : SwitchManager)
    (h : StopAll m = .ok m') :
    m'.map Prod.fst = m.map Prod.fst ∧ (m' ≠ [] → StopAll m' = .error ()) := by
  rcases StopAll_ok_spec h with ⟨hkeys, hstopped⟩
  exact ⟨hkeys, fun hne => StopAll_error_of_AllStopped hstopped hne⟩

/-- Witness for the amended C6 at the one-VLAN fixture manager. -/
theorem StopAll_registry_and_second_call_witness :
    StopAll c6m = .ok c6mStopped ∧
    c6mStopped.map Prod.fst = c6m.map Prod.fst ∧
    StopAll c6mStopped = .error () :=
  ⟨rfl, (StopAll_registry_and_second_call c6m c6mStopped rfl).1,
   (StopAll_registry_and_second_call c6m c6mStopped rfl).2 (by simp [c6mStopped])⟩

theorem forwardFrame_writes_src_ne (vs : VirtualSwitch) (f : EthernetFrame)
    (src : Connection) : ∀ w ∈ (vs.forwardFrame f src).2.1, w.1 ≠ src.id := by
  intro w hw
  rw [VirtualSwitch.forwardFrame] at hw
  cases hl : alookup f.destMAC vs.macTable with
  | none =>
    simp only [hl, VirtualSwitch.floodFrame] at hw
    exact (floodGo_writes_mem f src.id _ w hw).1
  | some entry =>
    simp only [hl] at hw
    by_cases h1 : entry.connection.id = src.id
    · simp [h1] at hw
    · rw [if_neg h1] at hw
      by_cases h2 : entry.connection.IsClosed = false
      · rw [if_pos h2] at hw
        cases hwf : entry.connection.WriteFrame (some f) with
        | ok c2 =>
          rw [hwf] at hw
          simp only [List.mem_singleton] at hw
          rw [hw]
          exact h1
        | error e =>
          rw [hwf] at hw
          simp only [List.mem_singleton] at hw
          rw [hw]
          exact h1
      · rw [if_neg h2] at hw
        simp at hw

/-- C3: no hair-pinning.  A processed frame — broadcast, multicast or
unicast — is never written back to its source connection: every write the
forwarding plane attempts targets a connection id different from the
source's. -/
theorem processFrame_no_hairpin (vs : VirtualSwitch) (f : EthernetFrame) (src : Connection)
    (now : Int) : ∀ w ∈ (vs.processFrame f src now).2.1, w.1 ≠ src.id := by
  intro w hw
  rw [VirtualSwitch.processFrame] at hw
  by_cases hb : (f.IsBroadcast || f.IsMulticast) = true
  · simp only [hb, if_true] at hw
    simp only [VirtualSwitch.floodFrame] at hw
    exact (floodGo_writes_mem f src.id _ w hw).1
  · simp only [hb, if_false] at hw
    exact forwardFrame_writes_src_ne _ f src w hw

/-- VLAN with the source `c1` and one open peer `c3`, empty MAC table. -/
def c3VS : VirtualSwitch :=
  { NewVirtualSwitch [9999] with connections := [("c1", cxSrc), ("c3", cxC3)] }

/-- Witness for C3: in `c3VS` the unicast fixture frame (unknown
destination) is flooded, producing a write to `c3`, and that write's target
differs from the source id `c1`. -/
theorem processFrame_no_hairpin_witness :
    ("c3", true) ∈ (c3VS.processFrame cxFrame cxSrc 0).2.1 ∧
    (("c3", true) : String × Bool).1 ≠ cxSrc.id :=
  ⟨by rw [show (c3VS.processFrame cxFrame cxSrc 0).2.1 = [("c3", true)] from rfl]
      exact List.mem_singleton.mpr rfl,
   processFrame_no_hairpin c3VS cxFrame cxSrc 0 ("c3", true)
     (by rw [show (c3VS.processFrame cxFrame cxSrc 0).2.1 = [("c3", true)] from rfl]
         exact List.mem_singleton.mpr rfl)⟩

/-- VLAN whose peer `c2` has a failing socket, used for the C4 fixtures. -/
def c4VS : VirtualSwitch :=
  { NewVirtualSwitch [9999] with connections := [("c1", cxSrc), ("c2", mkBadConn "c2")] }

/-- C4 counterexample: flooding the broadcast fixture from `c1` in `c4VS`
attempts a write to `c2` which fails, yet `dropped_frames` stays 0 — the
claim says every failed forwarding write increments it. -/
theorem handleFrame_flood_error_not_counted_cx :
    (c4VS.handleFrame bcFrame cxSrc 0).2 = [("c2", false)] ∧
    c4VS.droppedFrames = 0 ∧
    (c4VS.handleFrame bcFrame cxSrc 0).1.droppedFrames = 0 :=
  ⟨rfl, rfl, rfl⟩

/-- C4 (amended): a failed forwarding write never tears down the source
connection, but it increments `dropped_frames` only on the unicast path: on
the flood path (`floodFrame` returns nil) the counter is unchanged no matter
how many writes fail, while a failed write to a looked-up open unicast
destination bumps it by one. -/
theorem handleFrame_write_failure_policy (vs : VirtualSwitch) (f : EthernetFrame)
    (src : Connection) (now : Int) :
    ((f.IsBroadcast || f.IsMulticast) = true →
      (vs.handleFrame f src now).1.droppedFrames = vs.droppedFrames ∧
      ∀ kc ∈ vs.connections, kc.2.id = src.id →
        kc ∈ (vs.handleFrame f src now).1.connections) ∧
    (∀ entry e, (f.IsBroadcast || f.IsMulticast) = false →
      alookup f.destMAC
          (astore f.srcMAC { connection := src, learnedAt := now } vs.macTable) =
        some entry →
      ¬ entry.connection.id = src.id →
      entry.connection.IsClosed = false →
      entry.connection.WriteFrame (some f) = .error e →
      (vs.handleFrame f src now).1.droppedFrames = (vs.droppedFrames + 1) % U64 ∧
      (vs.handleFrame f src now).1.connections = vs.connections) := by
  constructor
  · intro hb
    simp only [VirtualSwitch.handleFrame, VirtualSwitch.processFrame, hb, if_true,
      VirtualSwitch.floodFrame, VirtualSwitch.learnMAC]
    constructor
    · rfl
    · intro kc hkc hid
      exact floodGo_preserves_src f src.id _ kc hkc hid
  · intro entry e hb hl h1 h2 hw
    simp only [VirtualSwitch.handleFrame, VirtualSwitch.processFrame, hb, if_false,
      VirtualSwitch.forwardFrame, VirtualSwitch.learnMAC]
    simp only [hl, h1, if_neg h1, h2, if_pos h2, hw]
    exact ⟨rfl, rfl⟩

/-- VLAN whose MAC table already maps the unicast destination to the open
peer `c2` with a failing socket. -/
def c4uVS : VirtualSwitch :=
  { NewVirtualSwitch [9999] with
    macTable := [(cxDstMAC, { connection := mkBadConn "c2", learnedAt := 0 })]
    connections := [("c1", cxSrc), ("c2", mkBadConn "c2")] }

/-- Witness for the amended C4: the flood conjunct at the broadcast fixture
(failed write, counter unchanged) and the unicast conjunct at the failing
unicast destination (counter incremented by one). -/
theorem handleFrame_write_failure_policy_witness :
    (bcFrame.IsBroadcast || bcFrame.IsMulticast) = true ∧
    (c4VS.handleFrame bcFrame cxSrc 0).1.droppedFrames = c4VS.droppedFrames ∧
    (cxFrame.IsBroadcast || cxFrame.IsMulticast) = false ∧
    alookup cxFrame.destMAC
        (astore cxFrame.srcMAC { connection := cxSrc, learnedAt := 0 } c4uVS.macTable) =
      some { connection := mkBadConn "c2", learnedAt := 0 } ∧
    ({ connection := mkBadConn "c2", learnedAt := 0 } : MACEntry).connection.WriteFrame
        (some cxFrame) = .error .sockWrite ∧
    (c4uVS.handleFrame cxFrame cxSrc 0).1.droppedFrames = (c4uVS.droppedFrames + 1) % U64 :=
  ⟨rfl, ((handleFrame_write_failure_policy c4VS bcFrame cxSrc 0).1 rfl).1, rfl, rfl, rfl,
   ((handleFrame_write_failure_policy c4uVS cxFrame cxSrc 0).2 _ .sockWrite rfl rfl
     (by decide) rfl rfl).1⟩

theorem ParseEthernetFrame_ok_pooled {d : List Nat} {fr : EthernetFrame}
    (h : ParseEthernetFrame d = .ok fr) : fr.pooled = true := by
  rw [ParseEthernetFrame] at h
  by_cases h1 : d.length < 14
  · rw [if_pos h1] at h
    cases h
  · rw [if_neg h1] at h
    cases h
    rfl

theorem ReadFrame_ok_pair {c : Connection} {now : Int} {pool : Nat}
    {f : EthernetFrame} {c' : Connection}
    (h : (c.ReadFrame now pool).1 = .ok (f, c')) :
    c.ReadFrame now pool = (.ok (f, c'), pool + 1) ∧ f.pooled = true := by
  rw [Connection.ReadFrame] at h ⊢
  by_cases h1 : c.closed = true
  · rw [if_pos h1] at h
    cases h
  · rw [if_neg h1] at h ⊢
    by_cases h2 : c.conn.recvBuf.length < 4
    · rw [if_pos h2] at h
      cases h
    · rw [if_neg h2] at h ⊢
      by_cases h3 : be32decode (c.conn.recvBuf.take 4) = 0 ∨
          be32decode (c.conn.recvBuf.take 4) > 1518
      · rw [if_pos h3] at h
        cases h
      · rw [if_neg h3] at h ⊢
        by_cases h4 : (c.conn.recvBuf.drop 4).length < be32decode (c.conn.recvBuf.take 4)
        · rw [if_pos h4] at h
          cases h
        · rw [if_neg h4] at h ⊢
          cases hp : ParseEthernetFrame
              ((c.conn.recvBuf.drop 4).take (be32decode (c.conn.recvBuf.take 4))) with
          | error e =>
            simp only [hp] at h
            cases h
          | ok frame =>
            simp only [hp] at h
            cases hv : frame.Validate with
            | some s =>
              simp only [hv] at h
              cases h
            | none =>
              simp only [hv, Except.ok.injEq, Prod.mk.injEq] at h
              rcases h with ⟨hf, hc⟩
              subst hf
              subst hc
              constructor
              · simp only [hv]
              · exact ParseEthernetFrame_ok_pooled hp

/-- C5 (code evaluated at the failing input): when the reader successfully
reads a frame, the frame is pooled, yet after the whole reader-loop
iteration the number of outstanding pool buffers has grown by one — the
forwarding plane never calls `Release`, so the buffer obtained in
`ReadFrame` is never returned to the pool (the claim requires exactly one
return). -/
theorem readerStep_never_releases (vs : VirtualSwitch) (src : Connection) (now : Int)
    (pool : Nat) (f : EthernetFrame) (src' : Connection)
    (h : (src.ReadFrame now pool).1 = .ok (f, src')) :
    (vs.readerStep src now pool).2.2.2 = pool + 1 ∧ f.pooled = true := by
  rcases ReadFrame_ok_pair h with ⟨hpair, hpooled⟩
  refine ⟨?_, hpooled⟩
  simp [VirtualSwitch.readerStep, hpair]

/-- A connection delivering one valid 64-byte frame on the wire. -/
def c5Conn : Connection :=
  NewConnection "r"
    { recvBuf := [0, 0, 0, 64] ++ cxRaw, sent := [], sendOk := true, closeOk := true
      sockClosed := false } 0

/-- The state of `c5Conn` after reading its frame at time 5. -/
def c5ConnAfter : Connection :=
  { c5Conn with
    conn := { c5Conn.conn with recvBuf := [] }
    framesReceived := 1, bytesReceived := 64, lastSeen := 5 }

/-- Witness for C5 at the concrete one-frame connection. -/
theorem readerStep_never_releases_witness :
    (c5Conn.ReadFrame 5 0).1 = .ok (cxFrame, c5ConnAfter) ∧
    ((NewVirtualSwitch [9999]).readerStep c5Conn 5 0).2.2.2 = 0 + 1 ∧
    cxFrame.pooled = true :=
  ⟨rfl, readerStep_never_releases (NewVirtualSwitch [9999]) c5Conn 5 0 cxFrame c5ConnAfter rfl⟩

/-- Runtime invariant of a VLAN: every MAC-table entry refers to a connection
held in that VLAN's connection set (maintained by `learnMAC`, which only
learns source connections handled by this switch, and by the cleanups, which
evict MAC entries together with their connection). -/
def MacConnInv (vs : VirtualSwitch) : Prop :=
  ∀ ke ∈ vs.macTable, ∃ kc ∈ vs.connections, kc.2.id = ke.2.connection.id

theorem forwardFrame_writes_target (vs : VirtualSwitch) (f : EthernetFrame)
    (src : Connection) :
    ∀ w ∈ (vs.forwardFrame f src).2.1,
      (∃ kc ∈ vs.connections, kc.2.id = w.1) ∨
      (∃ entry, alookup f.destMAC vs.macTable = some entry ∧
        entry.connection.id = w.1) := by
  intro w hw
  rw [VirtualSwitch.forwardFrame] at hw
  cases hl : alookup f.destMAC vs.macTable with
  | none =>
    simp only [hl, VirtualSwitch.floodFrame] at hw
    left
    rcases floodGo_writes_mem f src.id _ w hw with ⟨hne, kc, hkc, hid⟩
    exact ⟨kc, hkc, hid⟩
  | some entry =>
    simp only [hl] at hw
    right
    by_cases h1 : entry.connection.id = src.id
    · simp [h1] at hw
    · rw [if_neg h1] at hw
      by_cases h2 : entry.connection.IsClosed = false
      · rw [if_pos h2] at hw
        cases hwf : entry.connection.WriteFrame (some f) with
        | ok c2 =>
          simp only [hwf, List.mem_singleton] at hw
          exact ⟨entry, rfl, by subst hw; rfl⟩
        | error e =>
          simp only [hwf, List.mem_singleton] at hw
          exact ⟨entry, rfl, by subst hw; rfl⟩
      · rw [if_neg h2] at hw
        simp at hw

/-- C2: VLAN isolation.  Every write performed while processing a frame
received on the VLAN listening on `port` targets a connection stored in that
VLAN's own connection set, and the switches of all other ports are left
untouched — a frame never reaches a connection of a VLAN on another port. -/
theorem vlan_isolation (m : SwitchManager) (port : Nat) (vs : VirtualSwitch)
    (f : EthernetFrame) (src : Connection) (now : Int)
    (hvs : alookup port m = some vs)
    (hinv : MacConnInv vs)
    (hsrc : ∃ kc ∈ vs.connections, kc.2.id = src.id) :
    (∀ w ∈ (vs.processFrame f src now).2.1, ∃ kc ∈ vs.connections, kc.2.id = w.1) ∧
    (∀ p', p' ≠ port →
      alookup p' (managerProcessFrame m port f src now) = alookup p' m) := by
  constructor
  · intro w hw
    rw [VirtualSwitch.processFrame] at hw
    by_cases hb : (f.IsBroadcast || f.IsMulticast) = true
    · simp only [hb, if_true, VirtualSwitch.floodFrame] at hw
      rcases floodGo_writes_mem f src.id _ w hw with ⟨hne, kc, hkc, hid⟩
      exact ⟨kc, hkc, hid⟩
    · simp only [hb, if_false] at hw
      rcases forwardFrame_writes_target _ f src w hw with hconn | ⟨entry, hl, hid⟩
      · exact hconn
      · rcases mem_astore (alookup_mem hl) with hnew | hold
        · rcases hsrc with ⟨kc, hkc, hsid⟩
          refine ⟨kc, hkc, ?_⟩
          have hent : entry = { connection := src, learnedAt := now } :=
            congrArg Prod.snd hnew
          rw [hsid, ← hid, hent]
        · rcases hinv (f.destMAC, entry) hold with ⟨kc, hkc, hkid⟩
          exact ⟨kc, hkc, hkid.trans hid⟩
  · intro p' hp'
    rw [managerProcessFrame, hvs]
    exact alookup_aupdate_ne _ hp' m

/-- Two-VLAN manager: the fixture VLAN on port 9999 and a fresh VLAN on
port 9998. -/
def c2mgr : SwitchManager := [(9999, c3VS), (9998, NewVirtualSwitch [9998])]

/-- Witness for C2 on the two-VLAN manager: the flooded write of the fixture
frame targets a connection of the port-9999 VLAN, and the port-9998 VLAN is
unchanged. -/
theorem vlan_isolation_witness :
    alookup 9999 c2mgr = some c3VS ∧
    ("c3", true) ∈ (c3VS.processFrame cxFrame cxSrc 0).2.1 ∧
    (∃ kc ∈ c3VS.connections, kc.2.id = (("c3", true) : String × Bool).1) ∧
    alookup 9998 (managerProcessFrame c2mgr 9999 cxFrame cxSrc 0) = alookup 9998 c2mgr :=
  have hinv : MacConnInv c3VS := by
    intro ke hke
    simp [c3VS, NewVirtualSwitch] at hke
  have hsrc : ∃ kc ∈ c3VS.connections, kc.2.id = cxSrc.id :=
    ⟨("c1", cxSrc), List.mem_cons_self _ _, rfl⟩
  have hmem : ("c3", true) ∈ (c3VS.processFrame cxFrame cxSrc 0).2.1 := by
    rw [show (c3VS.processFrame cxFrame cxSrc 0).2.1 = [("c3", true)] from rfl]
    exact List.mem_singleton.mpr rfl
  ⟨rfl, hmem,
   (vlan_isolation c2mgr 9999 c3VS cxFrame cxSrc 0 rfl hinv hsrc).1 ("c3", true) hmem,
   (vlan_isolation c2mgr 9999 c3VS cxFrame cxSrc 0 rfl hinv hsrc).2 9998 (by decide)⟩

/-- C7: `ReadFrame` returns an error exactly in the claimed cases, each with
its own error kind, and otherwise returns the parsed frame while updating the
received counters and the last-seen timestamp.  The checks mirror the source
order: closed connection; short read of the 4-byte prefix; decoded length `L`
equal to 0 or above 1518; short read of the `L`-byte body; parse failure
(`L < 14`); validation failure (source MAC all zeros — the length bounds of
`Validate` cannot fire because `14 ≤ L ≤ 1518` already holds); success. -/
theorem ReadFrame_spec (c : Connection) (now : Int) (pool : Nat) :
    (c.closed = true → (c.ReadFrame now pool).1 = .error .connClosed) ∧
    (c.closed = false → c.conn.recvBuf.length < 4 →
      (c.ReadFrame now pool).1 = .error .lengthRead) ∧
    (c.closed = false → 4 ≤ c.conn.recvBuf.length →
      (be32decode (c.conn.recvBuf.take 4) = 0 ∨ be32decode (c.conn.recvBuf.take 4) > 1518) →
      (c.ReadFrame now pool).1 =
        .error (.invalidLength (be32decode (c.conn.recvBuf.take 4)))) ∧
    (c.closed = false → 4 ≤ c.conn.recvBuf.length →
      1 ≤ be32decode (c.conn.recvBuf.take 4) → be32decode (c.conn.recvBuf.take 4) ≤ 1518 →
      (c.conn.recvBuf.drop 4).length < be32decode (c.conn.recvBuf.take 4) →
      (c.ReadFrame now pool).1 = .error .bodyRead) ∧
    (c.closed = false → 4 ≤ c.conn.recvBuf.length →
      1 ≤ be32decode (c.conn.recvBuf.take 4) → be32decode (c.conn.recvBuf.take 4) ≤ 1518 →
      be32decode (c.conn.recvBuf.take 4) ≤ (c.conn.recvBuf.drop 4).length →
      be32decode (c.conn.recvBuf.take 4) < 14 →
      (c.ReadFrame now pool).1 = .error .parseFailed) ∧
    (c.closed = false → 4 ≤ c.conn.recvBuf.length →
      14 ≤ be32decode (c.conn.recvBuf.take 4) → be32decode (c.conn.recvBuf.take 4) ≤ 1518 →
      be32decode (c.conn.recvBuf.take 4) ≤ (c.conn.recvBuf.drop 4).length →
      (((c.conn.recvBuf.drop 4).take (be32decode (c.conn.recvBuf.take 4))).drop 6).take 6 =
        [0, 0, 0, 0, 0, 0] →
      (c.ReadFrame now pool).1 = .error .validateFailed) ∧
    (c.closed = false → 4 ≤ c.conn.recvBuf.length →
      14 ≤ be32decode (c.conn.recvBuf.take 4) → be32decode (c.conn.recvBuf.take 4) ≤ 1518 →
      be32decode (c.conn.recvBuf.take 4) ≤ (c.conn.recvBuf.drop 4).length →
      (((c.conn.recvBuf.drop 4).take (be32decode (c.conn.recvBuf.take 4))).drop 6).take 6 ≠
        [0, 0, 0, 0, 0, 0] →
      ∃ fr, ParseEthernetFrame
          ((c.conn.recvBuf.drop 4).take (be32decode (c.conn.recvBuf.take 4))) = .ok fr ∧
        (c.ReadFrame now pool).1 = .ok (fr,
          { c with
            conn := { c.conn with
                      recvBuf := (c.conn.recvBuf.drop 4).drop
                        (be32decode (c.conn.recvBuf.take 4)) }
            framesReceived := (c.framesReceived + 1) % U64
            bytesReceived := (c.bytesReceived +
              ((c.conn.recvBuf.drop 4).take (be32decode (c.conn.recvBuf.take 4))).length) % U64
            lastSeen := now })) := by
  have hdatalen : ∀ hb : be32decode (c.conn.recvBuf.take 4) ≤ (c.conn.recvBuf.drop 4).length,
      ((c.conn.recvBuf.drop 4).take (be32decode (c.conn.recvBuf.take 4))).length =
        be32decode (c.conn.recvBuf.take 4) := by
    intro hb
    rw [List.length_take]
    omega
  refine ⟨?_, ?_, ?_, ?_, ?_, ?_, ?_⟩
  · intro h1
    rw [Connection.ReadFrame, if_pos h1]
  · intro h1 h2
    rw [Connection.ReadFrame, if_neg (by rw [h1]; exact Bool.false_ne_true), if_pos h2]
  · intro h1 h2 h3
    rw [Connection.ReadFrame, if_neg (by rw [h1]; exact Bool.false_ne_true),
      if_neg (by omega), if_pos h3]
  · intro h1 h2 h3 h4 h5
    rw [Connection.ReadFrame, if_neg (by rw [h1]; exact Bool.false_ne_true),
      if_neg (by omega), if_neg (by omega), if_pos h5]
  · intro h1 h2 h3 h4 h5 h6
    rw [Connection.ReadFrame, if_neg (by rw [h1]; exact Bool.false_ne_true),
      if_neg (by omega), if_neg (by omega), if_neg (by omega)]
    have hp : ParseEthernetFrame
        ((c.conn.recvBuf.drop 4).take (be32decode (c.conn.recvBuf.take 4))) =
        .error "frame too short" := by
      rw [ParseEthernetFrame, if_pos (by rw [hdatalen h5]; omega)]
    simp only [hp]
  · intro h1 h2 h3 h4 h5 h6
    rw [Connection.ReadFrame, if_neg (by rw [h1]; exact Bool.false_ne_true),
      if_neg (by omega), if_neg (by omega), if_neg (by omega)]
    have hp : ParseEthernetFrame
        ((c.conn.recvBuf.drop 4).take (be32decode (c.conn.recvBuf.take 4))) =
        .ok { raw := (c.conn.recvBuf.drop 4).take (be32decode (c.conn.recvBuf.take 4))
              destMAC := ((c.conn.recvBuf.drop 4).take (be32decode (c.conn.recvBuf.take 4))).take 6
              srcMAC := (((c.conn.recvBuf.drop 4).take
                (be32decode (c.conn.recvBuf.take 4))).drop 6).take 6
              etherType := ((c.conn.recvBuf.drop 4).take
                  (be32decode (c.conn.recvBuf.take 4))).getD 12 0 * 256 +
                ((c.conn.recvBuf.drop 4).take (be32decode (c.conn.recvBuf.take 4))).getD 13 0
              payload := ((c.conn.recvBuf.drop 4).take
                (be32decode (c.conn.recvBuf.take 4))).drop 14
              pooled := true } := by
      rw [ParseEthernetFrame, if_neg (by rw [hdatalen h5]; omega)]
    have hv : EthernetFrame.Validate
        { raw := (c.conn.recvBuf.drop 4).take (be32decode (c.conn.recvBuf.take 4))
          destMAC := ((c.conn.recvBuf.drop 4).take (be32decode (c.conn.recvBuf.take 4))).take 6
          srcMAC := (((c.conn.recvBuf.drop 4).take
            (be32decode (c.conn.recvBuf.take 4))).drop 6).take 6
          etherType := ((c.conn.recvBuf.drop 4).take
              (be32decode (c.conn.recvBuf.take 4))).getD 12 0 * 256 +
            ((c.conn.recvBuf.drop 4).take (be32decode (c.conn.recvBuf.take 4))).getD 13 0
          payload := ((c.conn.recvBuf.drop 4).take
            (be32decode (c.conn.recvBuf.take 4))).drop 14
          pooled := true } = some "invalid source MAC: all zeros" := by
      rw [EthernetFrame.Validate]
      simp only [hdatalen h5]
      rw [if_neg (by omega), if_neg (by omega), if_pos h6]
    simp only [hp, hv]
  · intro h1 h2 h3 h4 h5 h6
    rw [Connection.ReadFrame, if_neg (by rw [h1]; exact Bool.false_ne_true),
      if_neg (by omega), if_neg (by omega), if_neg (by omega)]
    have hp : ParseEthernetFrame
        ((c.conn.recvBuf.drop 4).take (be32decode (c.conn.recvBuf.take 4))) =
        .ok { raw := (c.conn.recvBuf.drop 4).take (be32decode (c.conn.recvBuf.take 4))
              destMAC := ((c.conn.recvBuf.drop 4).take (be32decode (c.conn.recvBuf.take 4))).take 6
              srcMAC := (((c.conn.recvBuf.drop 4).take
                (be32decode (c.conn.recvBuf.take 4))).drop 6).take 6
              etherType := ((c.conn.recvBuf.drop 4).take
                  (be32decode (c.conn.recvBuf.take 4))).getD 12 0 * 256 +
                ((c.conn.recvBuf.drop 4).take (be32decode (c.conn.recvBuf.take 4))).getD 13 0
              payload := ((c.conn.recvBuf.drop 4).take
                (be32decode (c.conn.recvBuf.take 4))).drop 14
              pooled := true } := by
      rw [ParseEthernetFrame, if_neg (by rw [hdatalen h5]; omega)]
    have hv : EthernetFrame.Validate
        { raw := (c.conn.recvBuf.drop 4).take (be32decode (c.conn.recvBuf.take 4))
          destMAC := ((c.conn.recvBuf.drop 4).take (be32decode (c.conn.recvBuf.take 4))).take 6
          srcMAC := (((c.conn.recvBuf.drop 4).take
            (be32decode (c.conn.recvBuf.take 4))).drop 6).take 6
          etherType := ((c.conn.recvBuf.drop 4).take
              (be32decode (c.conn.recvBuf.take 4))).getD 12 0 * 256 +
            ((c.conn.recvBuf.drop 4).take (be32decode (c.conn.recvBuf.take 4))).getD 13 0
          payload := ((c.conn.recvBuf.drop 4).take
            (be32decode (c.conn.recvBuf.take 4))).drop 14
          pooled := true } = none := by
      rw [EthernetFrame.Validate]
      simp only [hdatalen h5]
      rw [if_neg (by omega), if_neg (by omega), if_neg h6]
    refine ⟨_, hp, ?_⟩
    simp only [hp, hv]

/-- Witness for C7: the success conjunct at the concrete one-frame
connection `c5Conn`. -/
theorem ReadFrame_spec_witness :
    c5Conn.closed = false ∧
    4 ≤ c5Conn.conn.recvBuf.length ∧
    14 ≤ be32decode (c5Conn.conn.recvBuf.take 4) ∧
    be32decode (c5Conn.conn.recvBuf.take 4) ≤ 1518 ∧
    be32decode (c5Conn.conn.recvBuf.take 4) ≤ (c5Conn.conn.recvBuf.drop 4).length ∧
    (((c5Conn.conn.recvBuf.drop 4).take
      (be32decode (c5Conn.conn.recvBuf.take 4))).drop 6).take 6 ≠ [0, 0, 0, 0, 0, 0] ∧
    (∃ fr, ParseEthernetFrame
        ((c5Conn.conn.recvBuf.drop 4).take (be32decode (c5Conn.conn.recvBuf.take 4))) =
        .ok fr ∧
      (c5Conn.ReadFrame 5 0).1 = .ok (fr,
        { c5Conn with
          conn := { c5Conn.conn with
                    recvBuf := (c5Conn.conn.recvBuf.drop 4).drop
                      (be32decode (c5Conn.conn.recvBuf.take 4)) }
          framesReceived := (c5Conn.framesReceived + 1) % U64
          bytesReceived := (c5Conn.bytesReceived +
            ((c5Conn.conn.recvBuf.drop 4).take
              (be32decode (c5Conn.conn.recvBuf.take 4))).length) % U64
          lastSeen := 5 })) :=
  ⟨rfl, by decide, by decide, by decide, by decide, by decide,
   (ReadFrame_spec c5Conn 5 0).2.2.2.2.2.2 rfl (by decide) (by decide) (by decide)
     (by decide) (by decide)⟩

end VSwitch
